import Mathlib

/-!
Shallow embedding of the firmware sketch
`src/MikrokontrollerBluetoothNFCReader/MikrokontrollerBluetoothNFCReader.ino`
and proofs about its lifecycle state machine, credential store, Wi-Fi
connection logic, captive-portal form handling, tag-read deduplication and
RFID uid formatting.

External capabilities (the radio stack, the key-value store, the reader
chip, wall-clock time) are passed in as explicit parameters; machine
integers are modelled as `Nat` with explicit reduction modulo `2 ^ 32`
where the source relies on unsigned wraparound.
-/

namespace NFCReader

/-! ## Credential Store (Preferences namespace "wifi")

The sketch keeps one durable record with two string keys, `ssid` and
`password`.  `Preferences.getString` takes a default returned when the key
is absent; `preferences.clear()` erases the whole namespace. -/

/-- State of the durable "wifi" Preferences namespace: each key is either
absent or holds a string. -/
structure Prefs where
  ssid : Option String
  password : Option String
  deriving DecidableEq, Repr

/-- In-memory credentials, as read by `loadCredentials`. -/
structure Credentials where
  ssid : String
  password : String
  deriving DecidableEq, Repr

/-- Embeds `loadCredentials` (.ino lines 160-165): `getString` with default
`""` for both keys. -/
def loadCredentials (p : Prefs) : Credentials :=
  { ssid := p.ssid.getD "", password := p.password.getD "" }

/-- Embeds `saveCredentials` (.ino lines 167-172): `putString` on both keys. -/
def saveCredentials (p : Prefs) (ssid pass : String) : Prefs :=
  { p with ssid := some ssid, password := some pass }

/-- Embeds `preferences.clear()` as used at .ino lines 265-267 and 366-368:
erases every key of the namespace. -/
def clearPrefs (_ : Prefs) : Prefs :=
  { ssid := none, password := none }

/-! ## connectToWiFi (.ino lines 244-273)

The join capability is modelled as an oracle `status : Nat → Bool` giving
the link state observed at the poll made after `k` completed wait
iterations.  Each loop iteration blocks for `WIFI_POLL_DELAY_MS`
milliseconds; the loop stops as soon as the oracle reports connected or
after `WIFI_ATTEMPT_CAP` iterations. -/

def WIFI_ATTEMPT_CAP : Nat := 10

def WIFI_POLL_DELAY_MS : Nat := 1000

/-- Outcome of `connectToWiFi`: either the link came up, or the sketch
cleared the stored credentials and called `ESP.restart()`. -/
inductive ConnectOutcome where
  | connected
  | clearedAndRestart
  deriving DecidableEq, Repr

/-- Embeds the polling loop of `connectToWiFi` (.ino lines 250-255):
`while (WiFi.status() != WL_CONNECTED && attempts < 10) { delay(1000); attempts++; }`.
Returns the final value of `attempts`; `fuel` is the number of iterations
still allowed by the cap. -/
def connectLoopAux (status : Nat → Bool) (attempts : Nat) : Nat → Nat
  | 0 => attempts
  | fuel + 1 => if status attempts then attempts else connectLoopAux status (attempts + 1) fuel

/-- Embeds `connectToWiFi` (.ino lines 244-273).  Returns the outcome, the
Preferences state after the call, and the number of 1-second polling waits
performed.  On failure the sketch clears the namespace and restarts; on
success the store is untouched. -/
def connectToWiFi (status : Nat → Bool) (p : Prefs) : ConnectOutcome × Prefs × Nat :=
  let a := connectLoopAux status 0 WIFI_ATTEMPT_CAP
  if status a then (.connected, p, a)
  else (.clearedAndRestart, clearPrefs p, a)

/-! ## handleSave (.ino lines 194-212) -/

/-- Form fields of a `POST /save` request: each field is present or absent,
as reported by `request->hasParam(..., true)`. -/
structure SaveRequest where
  ssid : Option String
  password : Option String
  deriving DecidableEq, Repr

/-- HTTP response sent by a portal handler. -/
structure HttpResponse where
  status : Nat
  body : String
  deriving DecidableEq, Repr

/-- Everything `handleSave` leaves behind: the response, the Preferences
state, the two credential globals, whether `ESP.restart()` was reached and
the `delay(...)` taken before it. -/
structure HandleSaveResult where
  response : HttpResponse
  prefs : Prefs
  savedSSID : String
  savedPassword : String
  restart : Bool
  delayMs : Nat
  deriving DecidableEq, Repr

/-- Embeds `handleSave` (.ino lines 194-212): with both fields present it
persists the credentials, updates the globals, answers 200, waits 500 ms
and restarts; otherwise it answers 400 and changes nothing. -/
def handleSave (req : SaveRequest) (p : Prefs) (curSSID curPass : String) : HandleSaveResult :=
  match req.ssid, req.password with
  | some s, some pw =>
    { response := { status := 200, body := "<h3>Credentials Saved. Restarting...</h3>" }
      prefs := saveCredentials p s pw
      savedSSID := s
      savedPassword := pw
      restart := true
      delayMs := 500 }
  | _, _ =>
    { response := { status := 400, body := "<h3>Invalid Data!</h3>" }
      prefs := p
      savedSSID := curSSID
      savedPassword := curPass
      restart := false
      delayMs := 0 }

/-! ## The main loop (.ino lines 397-432)

One scheduling tick of `loop()`: serial-command check, then the AP-mode
DNS branch, then the reconnect branch, then the RFID poll with the dedup
gate.  `millis()` is a 32-bit unsigned counter, so the stored
`lastReconnectTime` and the difference `now - lastReconnectTime` are taken
modulo `2 ^ 32`. -/

/-- Modulus of the 32-bit unsigned millisecond counter. -/
def M32 : Nat := 4294967296

/-- Unsigned 32-bit subtraction `a - b` (for `b < 2 ^ 32`), as computed by
C on `unsigned long` operands. -/
def usub32 (a b : Nat) : Nat := (a + M32 - b) % M32

/-- Reconnect interval of the loop (.ino line 411): 60000 ms. -/
def RECONNECT_INTERVAL_MS : Nat := 60000

/-- Embeds the dedup gate of `loop()` (.ino lines 421-424):
`if (uid == "" || uid == lastUID) return; lastUID = uid;`.  Given the
remembered `lastUID` and the raw read (`""` when no tag), returns the
emitted "new tag" event (if any) and the updated `lastUID`. -/
def dedupStep (lastUID uid : String) : Option String × String :=
  if uid = "" ∨ uid = lastUID then (none, lastUID) else (some uid, uid)

/-- The events emitted by the dedup gate over a whole sequence of raw
reads, starting from remembered id `lastUID`. -/
def dedupRun (lastUID : String) : List String → List String
  | [] => []
  | uid :: rest =>
    match dedupStep lastUID uid with
    | (none, l2) => dedupRun l2 rest
    | (some e, l2) => e :: dedupRun l2 rest

/-- The remembered id of the dedup gate after a sequence of raw reads. -/
def dedupLast (lastUID : String) : List String → String
  | [] => lastUID
  | uid :: rest => dedupLast (dedupStep lastUID uid).2 rest

/-- The mutable state `loop()` carries across ticks: the static
`lastReconnectTime` (.ino line 408, a 32-bit `millis()` value) and the
global `lastUID` (.ino line 55). -/
structure LoopState where
  lastReconnectTime : Nat
  lastUID : String
  deriving DecidableEq, Repr

/-- State at boot: `lastReconnectTime = 0`, `lastUID = ""`. -/
def initialLoopState : LoopState :=
  { lastReconnectTime := 0, lastUID := "" }

/-- Environment of one scheduling tick: the true elapsed milliseconds
(`millis()` returns `now % 2 ^ 32`), whether the radio is in AP
(provisioning) mode, whether the link is up, and the raw RFID read
(`""` when `readRFID()` found no tag). -/
structure TickInput where
  now : Nat
  apMode : Bool
  connected : Bool
  read : String
  deriving DecidableEq, Repr

/-- Observable effects of one scheduling tick: whether a reconnect attempt
(disconnect + re-begin) was issued, whether the RFID polling path ran,
the "new tag" event (if any), and the outbound notification calls made. -/
structure TickOutput where
  didReconnect : Bool
  polled : Bool
  emitted : Option String
  notifications : List String
  deriving DecidableEq, Repr

/-- Embeds `sendRFIDData` (.ino lines 331-355): when the link is up it
issues exactly one HTTP GET to `serverURL + localIP + "/" + uid`; when the
link is down it returns without any call. -/
def sendRFIDData (connected : Bool) (serverURL localIP uid : String) : List String :=
  if connected = false then []
  else [serverURL ++ localIP ++ "/" ++ uid]

/-- Embeds one pass of `loop()` (.ino lines 397-432).  In AP mode the tick
only services DNS; with the link down it issues at most one reconnect
attempt per 60 s interval and returns before the RFID poll; otherwise it
polls the reader and runs the dedup gate.  The `sendRFIDData(uid)` call at
.ino line 428 is commented out in the source, so no branch makes an
outbound notification call. -/
def loopTick (s : LoopState) (inp : TickInput) : TickOutput × LoopState :=
  if inp.apMode then
    ({ didReconnect := false, polled := false, emitted := none, notifications := [] }, s)
  else if inp.connected = false then
    if RECONNECT_INTERVAL_MS ≤ usub32 (inp.now % M32) s.lastReconnectTime then
      ({ didReconnect := true, polled := false, emitted := none, notifications := [] },
        { s with lastReconnectTime := inp.now % M32 })
    else
      ({ didReconnect := false, polled := false, emitted := none, notifications := [] }, s)
  else
    let r := dedupStep s.lastUID inp.read
    ({ didReconnect := false, polled := true, emitted := r.1, notifications := [] },
      { s with lastUID := r.2 })

/-- The `now` values of the ticks on which `loop()` issued a reconnect
attempt, over a whole run. -/
def reconTimes (s : LoopState) : List TickInput → List Nat
  | [] => []
  | inp :: rest =>
    let r := loopTick s inp
    if r.1.didReconnect then inp.now :: reconTimes r.2 rest
    else reconTimes r.2 rest

/-- A run of `k` ticks with the link permanently down, one tick every 60 s
starting 60 s after base time `b`. -/
def alwaysDownFrom (b : Nat) : Nat → List TickInput
  | 0 => []
  | k + 1 =>
    { now := b + RECONNECT_INTERVAL_MS, apMode := false, connected := false, read := "" }
      :: alwaysDownFrom (b + RECONNECT_INTERVAL_MS) k

/-! ## Wi-Fi scan capture (.ino lines 140-155)

`scanWiFiNetworks()` stores `WiFi.scanNetworks()` into the global
`networkCount`, returns immediately on the failure value `-1`, clamps the
count to `MAX_NETWORKS`, and copies `WiFi.SSID(i)` into `networkList[i]`
for `0 ≤ i < networkCount`.  The scan capability is modelled as the raw
count (an `Int`, `-1` on failure) plus an SSID oracle; the array writes are
modelled as the explicit list of `(index, value)` stores. -/

/-- Capacity of the `networkList` array (.ino line 50). -/
def MAX_NETWORKS : Nat := 20

/-- Embeds `scanWiFiNetworks` (.ino lines 140-155): returns the final
`networkCount` and the sequence of array stores performed. -/
def scanWiFiNetworks (scanCount : Int) (ssid : Nat → String) : Int × List (Nat × String) :=
  if scanCount = -1 then (scanCount, [])
  else
    let n : Int := if (MAX_NETWORKS : Int) < scanCount then (MAX_NETWORKS : Int) else scanCount
    (n, (List.range n.toNat).map fun i => (i, ssid i))

/-! ## Landing page (.ino lines 69-86 and 177-185)

`buildLandingPage()` concatenates one
`<option value='SSID'>SSID</option>` fragment per captured network — raw
concatenation, no escaping — and substitutes the result for the single
`%OPTIONS%` placeholder of the flash-resident template `index_html`.
Literal `\x7b`, `\x7d` and `\x27` below are the brace and apostrophe
characters of the template. -/

/-- The part of the `index_html` template (.ino lines 69-86) before the
`%OPTIONS%` placeholder. -/
def index_html_head : String :=
  "\n<!DOCTYPE HTML><html><head>\n  <title>ESP32 WiFi Provisioning</title>\n  <meta name=\"viewport\" content=\"width=device-width, initial-scale=1\">\n  <style>\n    body \x7b font-family: Arial; text-align: center; margin-top: 50px; \x7d\n    select, input \x7b font-size: 16px; padding: 8px; \x7d\n  </style>\n  </head><body>\n  <h2>Select Wi-Fi Network and Enter Password</h2>\n  <form method=\"POST\" action=\"/save\">\n    <label for=\"ssid\">Choose Network:</label><br>\n    <select name=\"ssid\" id=\"ssid\">"

/-- The part of the `index_html` template after the `%OPTIONS%`
placeholder. -/
def index_html_tail : String :=
  "</select><br><br>\n    Password: <input type=\"password\" name=\"password\"><br><br>\n    <input type=\"submit\" value=\"Save\">\n  </form>\n</body></html>\n"

/-- Embeds the option-building loop of `buildLandingPage` (.ino lines
178-181): `options += "<option value='" + ssid + "'>" + ssid + "</option>"`
for each captured network, in order. -/
def buildOptions : List String → String
  | [] => ""
  | s :: rest => "<option value=\x27" ++ s ++ "\x27>" ++ s ++ "</option>" ++ buildOptions rest

/-- Embeds `buildLandingPage` (.ino lines 177-185):
`page.replace("%OPTIONS%", options)` on the template, which contains
exactly one occurrence of the placeholder. -/
def buildLandingPage (networks : List String) : String :=
  index_html_head ++ buildOptions networks ++ index_html_tail

/-- Modelled from the spec: the HTML escaping of one character that §4.4
requires for untrusted SSIDs used in generated markup (the source performs
no escaping; this is the comparison point). -/
def escapeHtmlChar (c : Char) : String :=
  if c = '<' then "&lt;"
  else if c = '>' then "&gt;"
  else if c = '&' then "&amp;"
  else if c = Char.ofNat 39 then "&#39;"
  else if c = Char.ofNat 34 then "&quot;"
  else String.mk [c]

/-- Modelled from the spec: HTML-escaping a whole string. -/
def escapeHtml (s : String) : String :=
  String.join (s.data.map escapeHtmlChar)

/-- Modelled from the spec: the option fragments as they would read if each
SSID were escaped before insertion. -/
def buildOptionsEscaped : List String → String
  | [] => ""
  | s :: rest =>
    "<option value=\x27" ++ escapeHtml s ++ "\x27>" ++ escapeHtml s ++ "</option>"
      ++ buildOptionsEscaped rest

/-! ## readRFID (.ino lines 308-326)

On a successful read the sketch appends `String(uid.uidByte[i], HEX)` for
each uid byte — Arduino renders a byte in base 16 with **no** zero padding
and lowercase letters — and finally calls `toUpperCase()`, which uppercases
the accumulated characters in place.  Strings are compared through their
character data. -/

/-- The characters Arduino `String(value, HEX)` produces for a byte:
base-16 digits, lowercase, no padding (`0 ↦ "0"`, `4 ↦ "4"`, `163 ↦ "a3"`). -/
def hexChars (b : Nat) : List Char := Nat.toDigits 16 b

/-- The character data of the uid string built by `readRFID` (.ino lines
312-316): concatenate the unpadded hex of each byte, then uppercase
every character (`uidStr.toUpperCase()`). -/
def readRFIDData (bytes : List Nat) : List Char :=
  (bytes.foldl (fun acc b => acc ++ hexChars b) []).map Char.toUpper

/-- Embeds `readRFID` (.ino lines 308-326): `""` when no new card is
present or the serial read fails, otherwise the uppercased unpadded hex
rendering of the uid bytes. -/
def readRFID (newCard readOk : Bool) (bytes : List Nat) : String :=
  if newCard = false then ""
  else if readOk = false then ""
  else String.mk (readRFIDData bytes)

end NFCReader

namespace NFCReader

/-- Helper: the polling loop never runs more than `fuel` further iterations. -/
theorem connectLoopAux_le (status : Nat → Bool) (attempts fuel : Nat) :
    connectLoopAux status attempts fuel ≤ attempts + fuel := by
  induction fuel generalizing attempts with
  | zero => simp [connectLoopAux]
  | succ n ih =>
    simp only [connectLoopAux]
    split
    · omega
    · have := ih (attempts + 1)
      omega

/-- Helper: with a link that never comes up the loop exhausts its cap. -/
theorem connectLoopAux_allFalse (status : Nat → Bool) (h : ∀ k, status k = false)
    (attempts fuel : Nat) : connectLoopAux status attempts fuel = attempts + fuel := by
  induction fuel generalizing attempts with
  | zero => simp [connectLoopAux]
  | succ n ih =>
    simp only [connectLoopAux, h, Bool.false_eq_true, if_false]
    have := ih (attempts + 1)
    omega

end NFCReader

namespace NFCReader

/-- C7: `save` then `load` round-trips both fields; `clear` then `load`
yields the empty sentinel; `load` is total and yields empty strings when
the keys are missing. -/
theorem c7_credential_roundtrip :
    (∀ (p : Prefs) (X Y : String),
        loadCredentials (saveCredentials p X Y) = { ssid := X, password := Y }) ∧
    (∀ p : Prefs, loadCredentials (clearPrefs p) = { ssid := "", password := "" }) ∧
    loadCredentials { ssid := none, password := none } = { ssid := "", password := "" } := by
  refine ⟨fun p X Y => rfl, fun p => rfl, rfl⟩

/-- C3: for every join oracle, `connectToWiFi` performs at most 10 polling
waits of 1000 ms each (so at most 10 s of blocking), and with an oracle that
never reports connected it stops after exactly 10 attempts and resolves to
credential-clear plus restart — it never polls indefinitely. -/
theorem c3_bounded_join_attempts :
    (∀ (status : Nat → Bool) (p : Prefs),
        (connectToWiFi status p).2.2 ≤ WIFI_ATTEMPT_CAP ∧
        WIFI_POLL_DELAY_MS * (connectToWiFi status p).2.2 ≤ 10000 ∧
        ((connectToWiFi status p).1 = .connected ∨
          (connectToWiFi status p).1 = .clearedAndRestart)) ∧
    (∀ (status : Nat → Bool) (p : Prefs), (∀ k, status k = false) →
        connectToWiFi status p =
          (.clearedAndRestart, clearPrefs p, WIFI_ATTEMPT_CAP)) := by
  constructor
  · intro status p
    have hle : connectLoopAux status 0 WIFI_ATTEMPT_CAP ≤ 10 := by
      simpa [WIFI_ATTEMPT_CAP] using connectLoopAux_le status 0 WIFI_ATTEMPT_CAP
    refine ⟨?_, ?_, ?_⟩
    · simp only [connectToWiFi, WIFI_ATTEMPT_CAP] at *
      split <;> simpa using hle
    · simp only [connectToWiFi]
      split <;> simp only [WIFI_POLL_DELAY_MS] <;> omega
    · simp only [connectToWiFi]
      split
      · exact Or.inl rfl
      · exact Or.inr rfl
  · intro status p h
    have ha : connectLoopAux status 0 WIFI_ATTEMPT_CAP = WIFI_ATTEMPT_CAP := by
      simpa using connectLoopAux_allFalse status h 0 WIFI_ATTEMPT_CAP
    simp [connectToWiFi, ha, h]

/-- C3 witness: instantiating the bound and the always-down case at the
constant-false oracle and the empty store. -/
theorem c3_bounded_join_attempts_witness :
    (connectToWiFi (fun _ => false) { ssid := none, password := none }).2.2 ≤ WIFI_ATTEMPT_CAP ∧
    connectToWiFi (fun _ => false) { ssid := none, password := none } =
      (.clearedAndRestart, clearPrefs { ssid := none, password := none }, WIFI_ATTEMPT_CAP) :=
  ⟨(c3_bounded_join_attempts.1 (fun _ => false) _).1,
    c3_bounded_join_attempts.2 (fun _ => false) _ (fun _ => rfl)⟩

/-- C4: whenever the attempt cap is exhausted without the link coming up
(equivalently, whenever the outcome is not `connected`), the stored
credentials are cleared to the empty sentinel in the very state handed to
the restart, and the function resolves to a restart rather than any further
in-process retry. -/
theorem c4_join_failure_clears_credentials :
    ∀ (status : Nat → Bool) (p : Prefs),
      status (connectLoopAux status 0 WIFI_ATTEMPT_CAP) = false →
      (connectToWiFi status p).1 = .clearedAndRestart ∧
      (connectToWiFi status p).2.1 = { ssid := none, password := none } ∧
      loadCredentials (connectToWiFi status p).2.1 = { ssid := "", password := "" } := by
  intro status p h
  simp [connectToWiFi, h, clearPrefs, loadCredentials]

/-- C4 witness: the always-down oracle exhausts the cap, clears the store
and restarts. -/
theorem c4_join_failure_clears_credentials_witness :
    ((fun _ => false : Nat → Bool) (connectLoopAux (fun _ => false) 0 WIFI_ATTEMPT_CAP) = false) ∧
    (connectToWiFi (fun _ => false) { ssid := some "X", password := some "Y" }).1 =
      .clearedAndRestart ∧
    (connectToWiFi (fun _ => false) { ssid := some "X", password := some "Y" }).2.1 =
      { ssid := none, password := none } :=
  ⟨rfl,
    (c4_join_failure_clears_credentials (fun _ => false) _ rfl).1,
    (c4_join_failure_clears_credentials (fun _ => false) _ rfl).2.1⟩

/-- C5: `handleSave` answers 400 and changes neither the stored credentials
nor the in-memory state (and does not restart) when either form field is
missing; with both fields present it persists the credentials, answers 200
and restarts after a fixed 500 ms (sub-second) delay. -/
theorem c5_handleSave_validation :
    ∀ (req : SaveRequest) (p : Prefs) (s0 pw0 : String),
      ((req.ssid = none ∨ req.password = none) →
        (handleSave req p s0 pw0).response.status = 400 ∧
        (handleSave req p s0 pw0).prefs = p ∧
        (handleSave req p s0 pw0).savedSSID = s0 ∧
        (handleSave req p s0 pw0).savedPassword = pw0 ∧
        (handleSave req p s0 pw0).restart = false) ∧
      (∀ s pw, req.ssid = some s → req.password = some pw →
        (handleSave req p s0 pw0).response.status = 200 ∧
        (handleSave req p s0 pw0).prefs = saveCredentials p s pw ∧
        loadCredentials (handleSave req p s0 pw0).prefs = { ssid := s, password := pw } ∧
        (handleSave req p s0 pw0).restart = true ∧
        (handleSave req p s0 pw0).delayMs = 500 ∧
        (handleSave req p s0 pw0).delayMs < 1000) := by
  intro req p s0 pw0
  constructor
  · intro hmiss
    obtain ⟨rs, rp⟩ := req
    cases rs <;> cases rp <;> simp_all [handleSave]
  · intro s pw hs hpw
    obtain ⟨rs, rp⟩ := req
    cases rs <;> cases rp <;>
      simp_all [handleSave, saveCredentials, loadCredentials]

/-- C5 witness: a request missing the password keeps the portal up without
touching state, and a complete request persists and restarts after 500 ms. -/
theorem c5_handleSave_validation_witness :
    (handleSave { ssid := some "net", password := none }
        { ssid := none, password := none } "" "").response.status = 400 ∧
    (handleSave { ssid := some "net", password := some "pw" }
        { ssid := none, password := none } "" "").restart = true ∧
    (handleSave { ssid := some "net", password := some "pw" }
        { ssid := none, password := none } "" "").delayMs = 500 :=
  ⟨((c5_handleSave_validation { ssid := some "net", password := none }
      { ssid := none, password := none } "" "").1 (Or.inr rfl)).1,
    ((c5_handleSave_validation { ssid := some "net", password := some "pw" }
      { ssid := none, password := none } "" "").2 "net" "pw" rfl rfl).2.2.2.1,
    ((c5_handleSave_validation { ssid := some "net", password := some "pw" }
      { ssid := none, password := none } "" "").2 "net" "pw" rfl rfl).2.2.2.2.1⟩

end NFCReader

namespace NFCReader

/-- Helper: the remembered id of the dedup gate equals the last emitted
event, or the starting id when nothing has been emitted yet. -/
theorem dedupLast_eq_getLastD (reads : List String) :
    ∀ l : String, dedupLast l reads = (dedupRun l reads).getLastD l := by
  induction reads with
  | nil => intro l; rfl
  | cons uid rest ih =>
    intro l
    by_cases h : uid = "" ∨ uid = l
    · simp only [dedupLast, dedupRun, dedupStep, if_pos h]
      exact ih l
    · simp only [dedupLast, dedupRun, dedupStep, if_neg h]
      rw [List.getLastD_cons]
      exact ih uid

/-- C1: starting from the empty remembered id, the dedup gate emits at a
position exactly when the raw read there is non-empty and differs from the
last emitted id (an absent read neither emits nor clears the remembered
id), and the read sequence `[A, A, None, A, B, A]` emits exactly
`[A, B, A]`. -/
theorem c1_dedup_gate :
    (∀ (reads : List String) (i : Nat), i < reads.length →
      ((dedupStep (dedupLast "" (reads.take i)) (reads.getD i "")).1.isSome = true ↔
        reads.getD i "" ≠ "" ∧
          reads.getD i "" ≠ (dedupRun "" (reads.take i)).getLastD "")) ∧
    dedupRun "" ["A", "A", "", "A", "B", "A"] = ["A", "B", "A"] := by
  constructor
  · intro reads i _
    rw [dedupLast_eq_getLastD]
    set u := reads.getD i "" with hu
    set L := (dedupRun "" (reads.take i)).getLastD "" with hL
    by_cases h : u = "" ∨ u = L
    · simp only [dedupStep, if_pos h, Option.isSome_none, Bool.false_eq_true, false_iff,
        not_and_or, not_not]
      tauto
    · simp only [dedupStep, if_neg h, Option.isSome_some, true_iff]
      push_neg at h
      exact h
  · decide

/-- C1 witness: position 4 of `[A, A, None, A, B, A]` (the read `B`) is a
valid position, and the gate emits there because `B` is non-empty and
differs from the last emitted id `A`. -/
theorem c1_dedup_gate_witness :
    4 < (["A", "A", "", "A", "B", "A"] : List String).length ∧
    ((dedupStep (dedupLast "" ((["A", "A", "", "A", "B", "A"] : List String).take 4))
        ((["A", "A", "", "A", "B", "A"] : List String).getD 4 "")).1.isSome = true ↔
      (["A", "A", "", "A", "B", "A"] : List String).getD 4 "" ≠ "" ∧
        (["A", "A", "", "A", "B", "A"] : List String).getD 4 "" ≠
          (dedupRun "" ((["A", "A", "", "A", "B", "A"] : List String).take 4)).getLastD "") :=
  ⟨by decide, c1_dedup_gate.1 ["A", "A", "", "A", "B", "A"] 4 (by decide)⟩

/-- C2 counterexample: in the Operational state, reading the new tag
`04A3FF` does emit a "new tag" event, but the tick makes zero outbound
notification calls — not the one call the claim requires — because the
`sendRFIDData(uid)` call is commented out in the source (.ino line 428). -/
theorem c2_counterexample :
    (loopTick initialLoopState
        { now := 0, apMode := false, connected := true, read := "04A3FF" }).1.emitted =
      some "04A3FF" ∧
    (loopTick initialLoopState
        { now := 0, apMode := false, connected := true, read := "04A3FF" }).1.notifications =
      [] ∧
    ¬ (loopTick initialLoopState
        { now := 0, apMode := false, connected := true, read := "04A3FF"
          }).1.notifications.length = 1 := by
  refine ⟨by decide, by decide, by decide⟩

/-- C2 amended: while Operational the dedup gate still emits one "new tag"
event per fresh tag and suppresses the repeated read on the next tick, but
every tick makes zero calls to the outbound notification capability — the
forwarding call `sendRFIDData(uid)` is disabled (commented out) in the
source. -/
theorem c2_notification_calls_disabled :
    (∀ (s : LoopState) (inp : TickInput), (loopTick s inp).1.notifications = []) ∧
    (∀ (s : LoopState) (t1 t2 : Nat) (uid : String), uid ≠ "" → uid ≠ s.lastUID →
      (loopTick s { now := t1, apMode := false, connected := true, read := uid }).1.emitted =
        some uid ∧
      (loopTick
          (loopTick s { now := t1, apMode := false, connected := true, read := uid }).2
          { now := t2, apMode := false, connected := true, read := uid }).1.emitted = none) := by
  constructor
  · intro s inp
    simp only [loopTick]
    split
    · rfl
    · split
      · split <;> rfl
      · rfl
  · intro s t1 t2 uid h1 h2
    simp [loopTick, dedupStep, h1, h2]

/-- C2 amended witness: the fresh tag `04A3FF` is emitted once and the
identical read on the next tick is suppressed, with zero notification
calls. -/
theorem c2_notification_calls_disabled_witness :
    (loopTick initialLoopState
        { now := 0, apMode := false, connected := true, read := "04A3FF" }).1.notifications =
      [] ∧
    ("04A3FF" : String) ≠ "" ∧ ("04A3FF" : String) ≠ initialLoopState.lastUID ∧
    (loopTick initialLoopState
        { now := 0, apMode := false, connected := true, read := "04A3FF" }).1.emitted =
      some "04A3FF" ∧
    (loopTick
        (loopTick initialLoopState
          { now := 0, apMode := false, connected := true, read := "04A3FF" }).2
        { now := 1, apMode := false, connected := true, read := "04A3FF" }).1.emitted = none :=
  ⟨c2_notification_calls_disabled.1 initialLoopState
      { now := 0, apMode := false, connected := true, read := "04A3FF" },
    by decide, by decide,
    (c2_notification_calls_disabled.2 initialLoopState 0 1 "04A3FF"
      (by decide) (by decide)).1,
    (c2_notification_calls_disabled.2 initialLoopState 0 1 "04A3FF"
      (by decide) (by decide)).2⟩

end NFCReader

namespace NFCReader

/-- Helper: 32-bit unsigned subtraction recovers a true elapsed time below
`2 ^ 32` from the wrapped counter values. -/
theorem usub32_add (t d : Nat) (hd : d < M32) :
    usub32 ((t + d) % M32) (t % M32) = d := by
  have hM : 0 < M32 := by norm_num [M32]
  have ha : t % M32 < M32 := Nat.mod_lt _ hM
  have h1 : (t + d) % M32 = (t % M32 + d) % M32 := by
    conv_lhs => rw [Nat.add_mod, Nat.mod_eq_of_lt hd]
  rw [usub32, h1]
  have he : (t % M32 + d) % M32 + M32 - t % M32 =
      (t % M32 + d) % M32 + (M32 - t % M32) := by omega
  rw [he]
  have h2 : ((t % M32 + d) % M32 + (M32 - t % M32)) % M32 =
      ((t % M32 + d) + (M32 - t % M32)) % M32 :=
    Nat.ModEq.add_right (M32 - t % M32) (Nat.mod_modEq (t % M32 + d) M32)
  have h3 : (t % M32 + d) + (M32 - t % M32) = d + M32 := by omega
  rw [h2, h3, Nat.add_mod_right, Nat.mod_eq_of_lt hd]

/-- Helper: a tick that passes the interval check comes at least one
interval after the time stamped by the previous attempt. -/
theorem reconnect_gap (t1 t2 : Nat) (h12 : t1 ≤ t2)
    (h : RECONNECT_INTERVAL_MS ≤ usub32 (t2 % M32) (t1 % M32)) :
    t1 + RECONNECT_INTERVAL_MS ≤ t2 := by
  by_contra hc
  push_neg at hc
  obtain ⟨d, rfl⟩ : ∃ d, t2 = t1 + d := ⟨t2 - t1, by omega⟩
  have hR : RECONNECT_INTERVAL_MS = 60000 := rfl
  have hd : d < M32 := by
    have hM : M32 = 4294967296 := rfl
    omega
  rw [usub32_add t1 d hd] at h
  omega

/-- Helper: a tick that issues no reconnect attempt leaves
`lastReconnectTime` unchanged. -/
theorem loopTick_not_reconnect (s : LoopState) (inp : TickInput)
    (h : (loopTick s inp).1.didReconnect = false) :
    (loopTick s inp).2.lastReconnectTime = s.lastReconnectTime := by
  by_cases ha : inp.apMode = true
  · simp [loopTick, ha]
  · by_cases hc : inp.connected = false
    · by_cases hcond : RECONNECT_INTERVAL_MS ≤ usub32 (inp.now % M32) s.lastReconnectTime
      · simp [loopTick, ha, hc, hcond] at h
      · simp [loopTick, ha, hc, hcond]
    · simp [loopTick, ha, hc]

/-- Helper: a tick that issues a reconnect attempt passed the interval
check and stamped the wrapped current time into `lastReconnectTime`. -/
theorem loopTick_reconnect (s : LoopState) (inp : TickInput)
    (h : (loopTick s inp).1.didReconnect = true) :
    (loopTick s inp).2.lastReconnectTime = inp.now % M32 ∧
    RECONNECT_INTERVAL_MS ≤ usub32 (inp.now % M32) s.lastReconnectTime := by
  by_cases ha : inp.apMode = true
  · simp [loopTick, ha] at h
  · by_cases hc : inp.connected = false
    · by_cases hcond : RECONNECT_INTERVAL_MS ≤ usub32 (inp.now % M32) s.lastReconnectTime
      · exact ⟨by simp [loopTick, ha, hc, hcond], hcond⟩
      · simp [loopTick, ha, hc, hcond] at h
    · simp [loopTick, ha, hc] at h

/-- Helper: along any run whose tick times are pointwise at least `t0` and
pairwise nondecreasing, starting from a state stamped with wrapped time
`t0`, every reconnect tick comes at least one interval after `t0`, and any
two reconnect ticks are at least one interval apart. -/
theorem reconTimes_spec (inputs : List TickInput) :
    ∀ (s : LoopState) (t0 : Nat),
      s.lastReconnectTime = t0 % M32 →
      (∀ inp ∈ inputs, t0 ≤ inp.now) →
      List.Pairwise (fun a b : TickInput => a.now ≤ b.now) inputs →
      (∀ t ∈ reconTimes s inputs, t0 + RECONNECT_INTERVAL_MS ≤ t) ∧
      List.Pairwise (fun a b : Nat => a + RECONNECT_INTERVAL_MS ≤ b)
        (reconTimes s inputs) := by
  induction inputs with
  | nil =>
    intro s t0 _ _ _
    exact ⟨by simp [reconTimes], by simp [reconTimes]⟩
  | cons inp rest ih =>
    intro s t0 hlast hge hmono
    have hstep : reconTimes s (inp :: rest) =
        if (loopTick s inp).1.didReconnect then
          inp.now :: reconTimes (loopTick s inp).2 rest
        else reconTimes (loopTick s inp).2 rest := rfl
    obtain ⟨hmonoHead, hmonoTail⟩ := List.pairwise_cons.1 hmono
    by_cases hr : (loopTick s inp).1.didReconnect
    · obtain ⟨hlast2, hcond⟩ := loopTick_reconnect s inp hr
      rw [hlast] at hcond
      have hge0 : t0 ≤ inp.now := hge inp (List.mem_cons_self inp rest)
      have hgap : t0 + RECONNECT_INTERVAL_MS ≤ inp.now :=
        reconnect_gap t0 inp.now hge0 hcond
      have ihr := ih (loopTick s inp).2 inp.now hlast2 hmonoHead hmonoTail
      rw [hstep, if_pos hr]
      refine ⟨?_, ?_⟩
      · intro t ht
        rcases List.mem_cons.1 ht with rfl | ht
        · exact hgap
        · have := ihr.1 t ht
          omega
      · exact List.pairwise_cons.2 ⟨fun t ht => ihr.1 t ht, ihr.2⟩
    · have hlast2 := loopTick_not_reconnect s inp (by simpa using hr)
      have hgeRest : ∀ x ∈ rest, t0 ≤ x.now :=
        fun x hx => hge x (List.mem_cons_of_mem inp hx)
      rw [hstep, if_neg hr]
      exact ih (loopTick s inp).2 t0 (hlast2.trans hlast) hgeRest hmonoTail

/-- Helper: with the link permanently down and one tick per interval, every
tick issues a reconnect attempt — there is no attempt cap. -/
theorem reconTimes_alwaysDown_length (k : Nat) : ∀ (b : Nat) (u : String),
    (reconTimes { lastReconnectTime := b % M32, lastUID := u }
        (alwaysDownFrom b k)).length = k := by
  induction k with
  | zero => intro b u; rfl
  | succ k ih =>
    intro b u
    have hcond : RECONNECT_INTERVAL_MS ≤
        usub32 ((b + RECONNECT_INTERVAL_MS) % M32) (b % M32) := by
      rw [usub32_add b RECONNECT_INTERVAL_MS (by norm_num [RECONNECT_INTERVAL_MS, M32])]
    simp [alwaysDownFrom, reconTimes, loopTick, hcond, ih]

/-- C6: with the link down outside provisioning mode a tick never polls the
reader and never emits a tag event; any two reconnect attempts along a
time-monotone run from boot are at least 60 s (the configured interval)
apart; and with the link permanently down the attempts continue forever —
one per interval, with no attempt cap. -/
theorem c6_reconnect_floor_and_skip :
    (∀ (s : LoopState) (inp : TickInput),
        inp.apMode = false → inp.connected = false →
        (loopTick s inp).1.polled = false ∧ (loopTick s inp).1.emitted = none) ∧
    (∀ inputs : List TickInput,
        List.Pairwise (fun a b : TickInput => a.now ≤ b.now) inputs →
        List.Pairwise (fun a b : Nat => a + RECONNECT_INTERVAL_MS ≤ b)
          (reconTimes initialLoopState inputs)) ∧
    (∀ k : Nat, (reconTimes initialLoopState (alwaysDownFrom 0 k)).length = k) := by
  refine ⟨?_, ?_, ?_⟩
  · intro s inp ha hc
    by_cases hcond : RECONNECT_INTERVAL_MS ≤ usub32 (inp.now % M32) s.lastReconnectTime
    · constructor <;> simp [loopTick, ha, hc, hcond]
    · constructor <;> simp [loopTick, ha, hc, hcond]
  · intro inputs hmono
    have h0 : initialLoopState.lastReconnectTime = 0 % M32 := by
      simp [initialLoopState]
    exact (reconTimes_spec inputs initialLoopState 0 h0
      (fun inp _ => Nat.zero_le _) hmono).2
  · intro k
    have h0 : initialLoopState = { lastReconnectTime := 0 % M32, lastUID := "" } := by
      simp [initialLoopState]
    rw [h0]
    exact reconTimes_alwaysDown_length k 0 ""

/-- C6 witness: a link-down tick at boot skips polling, and on the
time-monotone link-down run ticking at 0 s, 60 s, 70 s and 120 s the
issued reconnect attempts (at 60 s and 120 s) are 60 s apart. -/
theorem c6_reconnect_floor_and_skip_witness :
    (loopTick initialLoopState
        { now := 100, apMode := false, connected := false, read := "" }).1.polled = false ∧
    List.Pairwise (fun a b : TickInput => a.now ≤ b.now)
      ([{ now := 0, apMode := false, connected := false, read := "" },
        { now := 60000, apMode := false, connected := false, read := "" },
        { now := 70000, apMode := false, connected := false, read := "" },
        { now := 120000, apMode := false, connected := false, read := "" }] :
          List TickInput) ∧
    List.Pairwise (fun a b : Nat => a + RECONNECT_INTERVAL_MS ≤ b)
      (reconTimes initialLoopState
        [{ now := 0, apMode := false, connected := false, read := "" },
          { now := 60000, apMode := false, connected := false, read := "" },
          { now := 70000, apMode := false, connected := false, read := "" },
          { now := 120000, apMode := false, connected := false, read := "" }]) :=
  ⟨(c6_reconnect_floor_and_skip.1 initialLoopState
      { now := 100, apMode := false, connected := false, read := "" } rfl rfl).1,
    by decide,
    c6_reconnect_floor_and_skip.2.1 _ (by decide)⟩

end NFCReader

namespace NFCReader

/-- Helper: every captured SSID occurs verbatim in the option fragments. -/
theorem ssid_infix_buildOptions (networks : List String) :
    ∀ s ∈ networks, s.data <:+: (buildOptions networks).data := by
  induction networks with
  | nil => intro s hs; cases hs
  | cons x rest ih =>
    intro s hs
    rcases List.mem_cons.1 hs with rfl | hs
    · refine ⟨"<option value=\x27".data,
        ("\x27>" ++ s ++ "</option>" ++ buildOptions rest).data, ?_⟩
      simp only [buildOptions, String.data_append, List.append_assoc]
    · have hmid := ih s hs
      have hsfx : (buildOptions rest).data <:+:
          (buildOptions (x :: rest)).data := by
        refine ⟨("<option value=\x27" ++ x ++ "\x27>" ++ x ++ "</option>").data, [], ?_⟩
        simp only [buildOptions, String.data_append, List.append_assoc, List.append_nil]
      exact hmid.trans hsfx

set_option maxRecDepth 4000 in
/-- C8 counterexample: for the captured network list `["<"]` the rendered
fragment is the raw `<option value='<'><</option>` — the SSID's
markup-special character is inserted unescaped, and the whole rendered page
differs from the page that escaping would produce. -/
theorem c8_counterexample :
    buildOptions ["<"] = "<option value=\x27<\x27><</option>" ∧
    buildOptions ["<"] ≠ buildOptionsEscaped ["<"] ∧
    buildLandingPage ["<"] ≠
      index_html_head ++ buildOptionsEscaped ["<"] ++ index_html_tail := by
  refine ⟨by decide, by decide, by decide⟩

/-- C8 amended: the provisioning form does **not** escape SSIDs — each
captured SSID's characters are inserted verbatim into the generated markup
by raw concatenation, so markup-special characters in an SSID do become
part of the page structure. -/
theorem c8_ssid_inserted_verbatim :
    ∀ (networks : List String) (s : String), s ∈ networks →
      s.data <:+: (buildLandingPage networks).data := by
  intro networks s hs
  have hmid := ssid_infix_buildOptions networks s hs
  have hpage : (buildLandingPage networks).data =
      index_html_head.data ++ (buildOptions networks).data ++ index_html_tail.data := by
    simp only [buildLandingPage, String.data_append]
  rw [hpage]
  exact hmid.trans (List.infix_append _ _ _)

/-- C8 amended witness: the markup-special SSID `<` is a member of the
captured list `["<"]` and appears verbatim in the rendered page. -/
theorem c8_ssid_inserted_verbatim_witness :
    ("<" : String) ∈ ["<"] ∧ ("<" : String).data <:+: (buildLandingPage ["<"]).data :=
  ⟨List.mem_singleton.2 rfl,
    c8_ssid_inserted_verbatim ["<"] "<" (List.mem_singleton.2 rfl)⟩

/-- C9: the scan capture stores at most `MAX_NETWORKS = 20` entries, writes
only indices inside the fixed-size array, keeps the networks in first-seen
scan order (the overflow beyond 20 silently dropped), and performs no write
at all when the scan reports failure. -/
theorem c9_scan_capture_bounded :
    ∀ (scanCount : Int) (ssid : Nat → String),
      (scanWiFiNetworks scanCount ssid).2.length ≤ MAX_NETWORKS ∧
      (∀ p ∈ (scanWiFiNetworks scanCount ssid).2, p.1 < MAX_NETWORKS) ∧
      (0 ≤ scanCount →
        (scanWiFiNetworks scanCount ssid).2.map Prod.snd =
          ((List.range scanCount.toNat).map ssid).take MAX_NETWORKS) ∧
      (scanCount = -1 → (scanWiFiNetworks scanCount ssid).2 = []) := by
  intro scanCount ssid
  by_cases h1 : scanCount = -1
  · subst h1
    refine ⟨by simp [scanWiFiNetworks, MAX_NETWORKS], by simp [scanWiFiNetworks], ?_, ?_⟩
    · intro h
      omega
    · intro _
      simp [scanWiFiNetworks]
  · simp only [scanWiFiNetworks, if_neg h1]
    set n : Int := if (MAX_NETWORKS : Int) < scanCount then (MAX_NETWORKS : Int) else scanCount
      with hn
    have hnle : n.toNat ≤ MAX_NETWORKS := by
      simp only [MAX_NETWORKS] at hn ⊢
      omega
    refine ⟨?_, ?_, ?_, ?_⟩
    · simpa using hnle
    · intro p hp
      simp only [List.mem_map, List.mem_range] at hp
      obtain ⟨i, hi, rfl⟩ := hp
      omega
    · intro hpos
      have hmin : n.toNat = min MAX_NETWORKS scanCount.toNat := by
        simp only [MAX_NETWORKS] at hn ⊢
        omega
      rw [List.map_map, ← List.map_take, List.take_range, hmin]
      rfl
    · intro h
      exact absurd h h1

/-- C9 witness: a scan reporting 25 networks is captured as exactly the
first 20, in scan order. -/
theorem c9_scan_capture_bounded_witness :
    (0 : Int) ≤ 25 ∧
    (scanWiFiNetworks 25 (fun i => toString i)).2.map Prod.snd =
      ((List.range (25 : Int).toNat).map (fun i => toString i)).take MAX_NETWORKS :=
  ⟨by decide, (c9_scan_capture_bounded 25 (fun i => toString i)).2.2.1 (by decide)⟩

/-- Helper: the hex accumulation loop of `readRFID` concatenates the
per-byte digits in byte order. -/
theorem foldl_hexChars (bytes : List Nat) :
    ∀ acc : List Char,
      bytes.foldl (fun a b => a ++ hexChars b) acc = acc ++ (bytes.map hexChars).flatten := by
  induction bytes with
  | nil => intro acc; simp
  | cons b rest ih =>
    intro acc
    simp only [List.foldl_cons, List.map_cons, List.flatten_cons, ih, List.append_assoc]

/-- C10 counterexample: Arduino `String(byte, HEX)` does not zero-pad, so
the distinct uid byte sequences `[0x01, 0x23]` and `[0x12, 0x03]` both
render as the TagId `"123"`, and the string length depends on the byte
values (byte `0x04` gives one character, byte `0x44` gives two) — distinct
byte sequences do not yield distinct strings and the format is not
determined by the byte count alone. -/
theorem c10_counterexample :
    readRFID true true [1, 35] = readRFID true true [18, 3] ∧
    ([1, 35] : List Nat) ≠ [18, 3] ∧
    (readRFID true true [4]).length = 1 ∧
    (readRFID true true [68]).length = 2 := by
  refine ⟨by decide, by decide, by decide, by decide⟩

/-- C10 amended: a successful read yields the concatenation, in byte order,
of the **unpadded** uppercase hexadecimal rendering of each uid byte (so
`[0x04, 0xA3, 0xFF]` gives `"4A3FF"`, not `"04A3FF"`); a failed or absent
read yields `""`.  Distinct byte sequences need not give distinct strings
and the string length depends on the byte values. -/
theorem c10_tagid_unpadded_upper_hex :
    (∀ bytes : List Nat,
      readRFIDData bytes = (bytes.map (fun b => (hexChars b).map Char.toUpper)).flatten) ∧
    readRFID true true [4, 163, 255] = "4A3FF" ∧
    readRFID false true [4, 163, 255] = "" ∧
    readRFID true false [4, 163, 255] = "" := by
  refine ⟨?_, by decide, by decide, by decide⟩
  intro bytes
  rw [readRFIDData, foldl_hexChars, List.nil_append, List.map_flatten, List.map_map]
  rfl

end NFCReader
